import Mathlib

/-!
Verification of the water-treatment-designer flowsheet layer.

The definitions below are a shallow embedding of the frontend flowsheet code:
the stream model (`models/Stream.ts`), the equipment model (`models/Equipment.ts`)
and the zustand flowsheet store (`stores/flowsheetStore.ts`).  JavaScript objects
(`Record<string, T>`) are embedded as insertion-ordered association lists with
unique keys; JavaScript numbers are embedded as rationals; an optional numeric
config field is an `Option` value and the JavaScript `x || d` fallback is made
explicit.  The Python solver backend is not part of the sources; where a claim
depends on it, the relevant piece is modelled from the specification and marked
as such in its doc comment.
-/

namespace WaterTreatment

/-- The eight stream kinds of the `STREAM_TYPES` record in `models/Stream.ts`. -/
inductive StreamType where
  | feed
  | product
  | permeate
  | concentrate
  | waste
  | backwash
  | chemical
  | air
deriving DecidableEq, Fintype, Repr

/-- The `STREAM_COMPATIBILITY` matrix of `models/Stream.ts`: for a source stream
type, the list of target stream types it may feed. -/
def STREAM_COMPATIBILITY : StreamType → List StreamType
  | .feed => [.feed, .product]
  | .product => [.product, .feed, .backwash]
  | .permeate => [.permeate, .product, .feed]
  | .concentrate => [.concentrate, .waste]
  | .waste => [.waste, .concentrate]
  | .backwash => [.backwash, .product, .feed]
  | .chemical => [.chemical]
  | .air => [.air]

/-- `areStreamsCompatible` from `models/Stream.ts`:
`STREAM_COMPATIBILITY[sourceType]?.includes(targetType) || false`. -/
def areStreamsCompatible (sourceType targetType : StreamType) : Bool :=
  (STREAM_COMPATIBILITY sourceType).contains targetType

/-- ASCII lowercasing of one character, modelling JavaScript `toLowerCase` on the
ASCII identifiers used for streams and ports. -/
def lowerChar (c : Char) : Char :=
  if 65 ≤ c.toNat ∧ c.toNat ≤ 90 then Char.ofNat (c.toNat + 32) else c

/-- `streamId.toLowerCase()` on ASCII identifiers. -/
def jsToLower (s : String) : String :=
  String.mk (s.data.map lowerChar)

/-- Does the pattern occur at the head of the character list? -/
def matchesAt : List Char → List Char → Bool
  | [], _ => true
  | _ :: _, [] => false
  | p :: ps, c :: cs => p == c && matchesAt ps cs

/-- Does the pattern occur as a contiguous substring of the character list? -/
def charsInclude (p : List Char) : List Char → Bool
  | [] => p.isEmpty
  | c :: rest => matchesAt p (c :: rest) || charsInclude p rest

/-- JavaScript `s.includes(pat)` on strings. -/
def strIncludes (s pat : String) : Bool :=
  charsInclude pat.data s.data

/-- `getStreamType` from `models/Stream.ts`: keyword classification of a stream
identifier, in the source's priority order, defaulting to `feed`. -/
def getStreamType (streamId : String) : StreamType :=
  let lower := jsToLower streamId
  if strIncludes lower "feed" then .feed
  else if strIncludes lower "permeate" then .permeate
  else if strIncludes lower "concentrate" || strIncludes lower "reject" then .concentrate
  else if strIncludes lower "waste" then .waste
  else if strIncludes lower "backwash" then .backwash
  else if strIncludes lower "chemical" || strIncludes lower "cip" then .chemical
  else if strIncludes lower "air" || strIncludes lower "gas" then .air
  else if strIncludes lower "product" || strIncludes lower "clean" then .product
  else .feed

/-- Insertion into a JavaScript object (`{...obj, [k]: v}`): an existing key keeps
its position and gets the new value, a new key is appended. -/
def recInsert (k : String) (v : α) : List (String × α) → List (String × α)
  | [] => [(k, v)]
  | (k', v') :: rest => if k' = k then (k, v) :: rest else (k', v') :: recInsert k v rest

/-- `delete obj[k]` on a JavaScript object. -/
def recErase (k : String) (l : List (String × α)) : List (String × α) :=
  l.filter (fun e => e.1 != k)

/-- `obj[k]` lookup on a JavaScript object. -/
def recLookup (k : String) : List (String × α) → Option α
  | [] => none
  | (k', v) :: rest => if k' = k then some v else recLookup k rest

/-- `StreamProperties` from `models/Stream.ts` (the fields the store writes when it
creates a stream). -/
structure StreamProperties where
  flowRate : ℚ
  pressure : ℚ
  temperature : ℚ
  concentration : ℚ
deriving DecidableEq, Repr

/-- A stream entry of the store's `streams` map. -/
structure Stream where
  id : String
  sourceEquipmentId : String
  sourcePort : String
  targetEquipmentId : String
  targetPort : String
  properties : StreamProperties
deriving DecidableEq, Repr

/-- A connection entry of the store's `connections` map, as built by `addConnection`. -/
structure Connection where
  id : String
  sourceEquipmentId : String
  sourcePort : String
  targetEquipmentId : String
  targetPort : String
  streamId : String
deriving DecidableEq, Repr

/-- The boundary-condition fields of `FeedTankEquipment.config`
(`models/Equipment.ts`) that `recalculateFlowsheet` reads.  `Option` models a field
that is absent from the underlying JavaScript object. -/
structure FeedTankConfig where
  inflow_rate : Option ℚ
  temperature : Option ℚ
  turbidity : Option ℚ
  tss : Option ℚ
  tds : Option ℚ
  fog : Option ℚ
  bod : Option ℚ
  cod : Option ℚ
  ph : Option ℚ
  alkalinity : Option ℚ
  hardness : Option ℚ
  chloride : Option ℚ
  sulfate : Option ℚ
  nitrate : Option ℚ
  phosphate : Option ℚ
  iron : Option ℚ
  manganese : Option ℚ
deriving DecidableEq, Repr

/-- An equipment entry of the store's `equipment` map: identity, type tag, and the
config fields the store itself reads (the feed-tank boundary fields; the rest of the
config is passed through to the backend opaquely). -/
structure Equipment where
  id : String
  type : String
  config : Option FeedTankConfig
deriving DecidableEq, Repr

/-- An `EngineeringError` diagnostic as held in the store's `errors` list. -/
structure EngineeringError where
  code : String
  message : String
  equipment_id : String
  severity : String
deriving DecidableEq, Repr

/-- One entry of the `streams` map of the solve request built in
`recalculateFlowsheet` (the flat record with seed values, water-quality defaults and
possible feed-tank overrides). -/
structure StreamData where
  stream_id : String
  source_equipment : String
  target_equipment : String
  source_port : String
  target_port : String
  flow_rate : ℚ
  pressure : ℚ
  temperature : ℚ
  concentration : ℚ
  turbidity : ℚ
  tss : ℚ
  tds : ℚ
  fog : ℚ
  bod : ℚ
  cod : ℚ
  ph : ℚ
  alkalinity : ℚ
  hardness : ℚ
  chloride : ℚ
  sulfate : ℚ
  nitrate : ℚ
  phosphate : ℚ
  iron : ℚ
  manganese : ℚ
deriving DecidableEq, Repr

/-- The `FlowsheetState` of the zustand store (`flowsheetStore.ts`), data fields
only (the action closures are modelled as the functions below). -/
structure FlowsheetState where
  equipment : List (String × Equipment)
  streams : List (String × Stream)
  connections : List (String × Connection)
  calculations : List (String × List (String × ℚ))
  streamProperties : List (String × StreamData)
  isCalculating : Bool
  lastCalculation : Option String
  massBalanceValid : Bool
  systemRecovery : ℚ
  errors : List EngineeringError
  warnings : List String
  selectedEquipment : Option String
  selectedStream : Option String
deriving DecidableEq

/-- The store's initial state. -/
def initialState : FlowsheetState :=
  { equipment := []
    streams := []
    connections := []
    calculations := []
    streamProperties := []
    isCalculating := false
    lastCalculation := none
    massBalanceValid := false
    systemRecovery := 0
    errors := []
    warnings := []
    selectedEquipment := none
    selectedStream := none }

/-- `removeEquipment` from the store: deletes the equipment entry, deletes every
connection whose `sourceEquipmentId` or `targetEquipmentId` equals the removed id,
and clears `selectedEquipment` when it pointed at the removed equipment.  All other
fields of the state, the `streams` map included, are left as they are. -/
def removeEquipment (s : FlowsheetState) (id : String) : FlowsheetState :=
  { s with
    equipment := recErase id s.equipment
    connections := s.connections.filter
      (fun e => !(e.2.sourceEquipmentId == id || e.2.targetEquipmentId == id))
    selectedEquipment := if s.selectedEquipment = some id then none
      else s.selectedEquipment }

/-- The connection id built by `addConnection`:
the template string joining the four endpoint names with dashes. -/
def connKey (sourceId sourcePort targetId targetPort : String) : String :=
  sourceId ++ "-" ++ sourcePort ++ "-" ++ targetId ++ "-" ++ targetPort

/-- `addConnection` from the store (the synchronous state update): inserts the
connection under its template-string id and a fresh stream seeded with flow 0,
pressure 1.0 bar, temperature 25 °C, concentration 0.  The fresh stream id
(`Date.now()`-based in the source) is the explicit `streamId` argument; the
`recalculateFlowsheet` call that follows is modelled separately and does not touch
`connections` or `streams`.  No compatibility or occupancy check is performed. -/
def addConnection (s : FlowsheetState)
    (sourceId sourcePort targetId targetPort streamId : String) : FlowsheetState :=
  let connectionId := connKey sourceId sourcePort targetId targetPort
  { s with
    connections := recInsert connectionId
      { id := connectionId
        sourceEquipmentId := sourceId
        sourcePort := sourcePort
        targetEquipmentId := targetId
        targetPort := targetPort
        streamId := streamId } s.connections
    streams := recInsert streamId
      { id := streamId
        sourceEquipmentId := sourceId
        sourcePort := sourcePort
        targetEquipmentId := targetId
        targetPort := targetPort
        properties := { flowRate := 0, pressure := 1, temperature := 25, concentration := 0 } }
      s.streams }

/-- `removeConnection` from the store: when the id is present, deletes the
connection and its associated stream; otherwise returns the state unchanged. -/
def removeConnection (s : FlowsheetState) (connectionId : String) : FlowsheetState :=
  match recLookup connectionId s.connections with
  | some connection =>
      { s with
        connections := recErase connectionId s.connections
        streams := recErase connection.streamId s.streams }
  | none => s

/-- One user action on the connection topology. -/
inductive ConnAction where
  | add (sourceId sourcePort targetId targetPort streamId : String)
  | remove (connectionId : String)
deriving DecidableEq, Repr

/-- Apply one connection action to the state. -/
def applyConnAction (s : FlowsheetState) : ConnAction → FlowsheetState
  | .add a b c d sid => addConnection s a b c d sid
  | .remove cid => removeConnection s cid

/-- Apply a sequence of connection actions, first to last. -/
def runConnActions (s : FlowsheetState) (l : List ConnAction) : FlowsheetState :=
  l.foldl applyConnAction s

/-- A state reachable from the initial state by `addConnection` and
`removeConnection` actions. -/
def ReachableConn (s : FlowsheetState) : Prop :=
  ∃ l : List ConnAction, runConnActions initialState l = s

/-- JavaScript `x || d` for an optional numeric config field: the default replaces
an absent (`undefined`, falsy) field and also a field whose value is 0 (falsy). -/
def jsOr (v : Option ℚ) (d : ℚ) : ℚ :=
  match v with
  | none => d
  | some x => if x = 0 then d else x

/-- The seed stream entry of the solve request: zero flow, 1.0 bar, 25 °C, zero
concentration, and the default water quality written literally in
`recalculateFlowsheet`. -/
def seedStreamData (streamId : String) (connection : Connection) : StreamData :=
  { stream_id := streamId
    source_equipment := connection.sourceEquipmentId
    target_equipment := connection.targetEquipmentId
    source_port := connection.sourcePort
    target_port := connection.targetPort
    flow_rate := 0
    pressure := 1
    temperature := 25
    concentration := 0
    turbidity := 1
    tss := 10
    tds := 500
    fog := 5
    bod := 20
    cod := 50
    ph := 7
    alkalinity := 100
    hardness := 150
    chloride := 50
    sulfate := 30
    nitrate := 10
    phosphate := 2
    iron := 1/2
    manganese := 1/10 }

/-- One entry of the request's `streams` map, as built in `recalculateFlowsheet`:
the seed entry, overridden with the source equipment's boundary fields when that
equipment is a `feed_tank` with a (truthy) config, each field through the
JavaScript `||` fallback. -/
def buildStreamData (equipment : List (String × Equipment)) (streamId : String)
    (connection : Connection) : StreamData :=
  let base := seedStreamData streamId connection
  match recLookup connection.sourceEquipmentId equipment with
  | some eq =>
      if eq.type = "feed_tank" then
        match eq.config with
        | some cfg =>
            { base with
              flow_rate := jsOr cfg.inflow_rate 0
              temperature := jsOr cfg.temperature 25
              turbidity := jsOr cfg.turbidity 1
              tss := jsOr cfg.tss 10
              tds := jsOr cfg.tds 500
              fog := jsOr cfg.fog 5
              bod := jsOr cfg.bod 20
              cod := jsOr cfg.cod 50
              ph := jsOr cfg.ph 7
              alkalinity := jsOr cfg.alkalinity 100
              hardness := jsOr cfg.hardness 150
              chloride := jsOr cfg.chloride 50
              sulfate := jsOr cfg.sulfate 30
              nitrate := jsOr cfg.nitrate 10
              phosphate := jsOr cfg.phosphate 2
              iron := jsOr cfg.iron (1/2)
              manganese := jsOr cfg.manganese (1/10) }
        | none => base
      else base
  | none => base

/-- Did `recalculateFlowsheet`'s stream builder take the feed-tank branch for this
connection? -/
def sourceIsFeedTank (equipment : List (String × Equipment)) (c : Connection) : Bool :=
  match recLookup c.sourceEquipmentId equipment with
  | some eq => eq.type == "feed_tank" && eq.config.isSome
  | none => false

/-- The connection keys pushed onto `equipmentStreams[eqId].inlet_streams`: the
keys of the connections targeting this equipment, in map order. -/
def inletStreamsOf (connections : List (String × Connection)) (eqId : String) :
    List String :=
  (connections.filter (fun e => e.2.targetEquipmentId == eqId)).map (fun e => e.1)

/-- The connection keys pushed onto `equipmentStreams[eqId].outlet_streams`: the
keys of the connections leaving this equipment, in map order. -/
def outletStreamsOf (connections : List (String × Connection)) (eqId : String) :
    List String :=
  (connections.filter (fun e => e.2.sourceEquipmentId == eqId)).map (fun e => e.1)

/-- One entry of the request's `equipment` map. -/
structure EquipmentEntry where
  equipment_id : String
  equipment_type : String
  config : Option FeedTankConfig
  inlet_streams : List String
  outlet_streams : List String
deriving DecidableEq, Repr

/-- The `flowsheetData` request assembled by `recalculateFlowsheet` from the
equipment and connection snapshots (and from nothing else in the state). -/
structure SolveRequest where
  equipment : List (String × EquipmentEntry)
  streams : List (String × StreamData)
  connections : List (String × Connection)
deriving DecidableEq

/-- Build `flowsheetData` from the current state, exactly as
`recalculateFlowsheet` does before calling `processApi.calculateFlowsheet`. -/
def buildFlowsheetData (s : FlowsheetState) : SolveRequest :=
  { equipment := s.equipment.map (fun e =>
      (e.1,
        { equipment_id := e.1
          equipment_type := e.2.type
          config := e.2.config
          inlet_streams := inletStreamsOf s.connections e.1
          outlet_streams := outletStreamsOf s.connections e.1 }))
    streams := s.connections.map (fun e => (e.1, buildStreamData s.equipment e.1 e.2))
    connections := s.connections }

/-- The response of `processApi.calculateFlowsheet`; optional fields model the
`result.x || fallback` reads in the store. -/
structure SolveResponse where
  success : Bool
  converged : Option Bool
  streams : Option (List (String × StreamData))
  equipment_results : Option (List (String × List (String × ℚ)))
  system_recovery : Option ℚ
  errors : Option (List EngineeringError)
deriving DecidableEq

/-- `recalculateFlowsheet` as a state transformer for one solve round trip.
`backend` stands for `processApi.calculateFlowsheet` (the Python backend is not in
the frontend sources) and `now` for the ISO timestamp taken on success.  With no
equipment the store only drops `isCalculating`; otherwise errors and warnings are
cleared, the request is built from the equipment and connection snapshots, and the
response is recorded: on success all result fields, on failure only the returned
diagnostics. -/
def recalculateFlowsheet (backend : SolveRequest → SolveResponse) (now : String)
    (s : FlowsheetState) : FlowsheetState :=
  if s.equipment.isEmpty then { s with isCalculating := false }
  else
    let s1 := { s with isCalculating := true, errors := [], warnings := [] }
    let result := backend (buildFlowsheetData s)
    if result.success then
      { s1 with
        calculations := result.equipment_results.getD []
        streamProperties := result.streams.getD []
        massBalanceValid := result.converged.getD false
        systemRecovery := result.system_recovery.getD 0
        errors := result.errors.getD []
        isCalculating := false
        lastCalculation := some now }
    else
      { s1 with
        errors := result.errors.getD []
        isCalculating := false }

/-- Modelled from the spec: the topology validation of the backend flowsheet
solver (the Python backend is not among the sources; only its caller
`recalculateFlowsheet` is).  Spec 4.2 and 7: the solve fails with a
`TopologyError` diagnostic when a required inlet has no connected producer; a feed
tank is an external feed boundary and requires no producer. -/
def topologyDiagnostics (req : SolveRequest) : List EngineeringError :=
  (req.equipment.filter
      (fun e => e.2.equipment_type != "feed_tank" && e.2.inlet_streams.isEmpty)).map
    (fun e =>
      { code := "TopologyError"
        message := "required inlet has no connected producer"
        equipment_id := e.1
        severity := "error" })

/-- Modelled from the spec: the backend solve endpoint as seen by the store.
Spec 7: structural (topology) errors abort the solve and return only diagnostics;
otherwise a result is returned.  The successful numeric result is irrelevant to the
claims settled against this model and is represented by echoing the request's
stream seeds. -/
def backendSolve (req : SolveRequest) : SolveResponse :=
  let diags := topologyDiagnostics req
  if diags.isEmpty then
    { success := true
      converged := some true
      streams := some req.streams
      equipment_results := some []
      system_recovery := some 0
      errors := some [] }
  else
    { success := false
      converged := none
      streams := none
      equipment_results := none
      system_recovery := none
      errors := some diags }

/-- Modelled from the spec: one equipment node as seen by the backend mass-balance
solver (spec 4.1-4.3; the solver itself is not among the sources).  Streams are
numbered; the node reads its inlet streams and distributes their total flow over
its outlet streams by fixed fractions — each equipment model conserves mass
exactly (spec 4.1: "mass and species balance both enforced"). -/
structure SolverNode where
  id : String
  inlets : List ℕ
  outlets : List ℕ
  splits : List ℚ
deriving DecidableEq, Repr

/-- Total mass flow into a node under the given stream flows. -/
def sumInlets (flows : List ℚ) (n : SolverNode) : ℚ :=
  (n.inlets.map (fun i => flows.getD i 0)).sum

/-- Total mass flow out of a node under the given stream flows. -/
def sumOutlets (flows : List ℚ) (n : SolverNode) : ℚ :=
  (n.outlets.map (fun o => flows.getD o 0)).sum

/-- Write a node's outlet flows: each outlet receives its split fraction of the
node's total inlet flow. -/
def writeOutlets (flows : List ℚ) (n : SolverNode) (total : ℚ) : List ℚ :=
  (n.outlets.zip n.splits).foldl (fun fl p => fl.set p.1 (p.2 * total)) flows

/-- Evaluate one equipment node in place (spec 4.3: the solver invokes the
equipment model to produce candidate outlet states). -/
def evalNode (flows : List ℚ) (n : SolverNode) : List ℚ :=
  writeOutlets flows n (sumInlets flows n)

/-- One solver pass: evaluate every equipment in the fixed evaluation order
(spec 4.3). -/
def runPass (nodes : List SolverNode) (flows : List ℚ) : List ℚ :=
  nodes.foldl evalNode flows

/-- Modelled from the spec: one solver iteration with under-relaxation
(spec 4.3): evaluate every equipment in the fixed order, then blend each stream's
new flow with its previous flow through the under-relaxation factor `omega`
(default 0.5), damping oscillation in recycle loops. -/
def relaxedPass (omega : ℚ) (nodes : List SolverNode) (flows : List ℚ) : List ℚ :=
  (flows.zip (runPass nodes flows)).map
    (fun p => (1 - omega) * p.1 + omega * p.2)

/-- Modelled from the spec: the solver residual test.  Spec 3 defines
`maxResidual` as "the largest mass-balance discrepancy observed", so the residual
of a state is below the tolerance when every node's relative mass-balance
discrepancy is: |Σ inlet − Σ outlet| < tol · Σ inlet, a node with no imbalance
counting as zero discrepancy.  (Spec 4.3 words the residual as the largest
relative flow change between passes; the model follows spec 3's mass-balance
reading, under which the globally enforced invariant of spec 3 — mass balance
within tolerance once `converged` is true — is exactly what the stopping rule
"residual < tolerance" tests.)  The absolute value is spelled as the two-sided
comparison. -/
def residualBelow (tol : ℚ) (nodes : List SolverNode) (flows : List ℚ) : Prop :=
  ∀ n ∈ nodes,
    (sumInlets flows n - sumOutlets flows n < tol * sumInlets flows n ∧
      sumOutlets flows n - sumInlets flows n < tol * sumInlets flows n) ∨
    sumInlets flows n - sumOutlets flows n = 0

instance (tol : ℚ) (nodes : List SolverNode) (flows : List ℚ) :
    Decidable (residualBelow tol nodes flows) := by
  unfold residualBelow
  infer_instance

/-- Modelled from the spec: the solver loop (spec 4.3).  Starting from the seeded
flows, repeat the relaxed pass; stop with `converged = true` as soon as the
residual of the produced state falls below the tolerance (default 1e-3) — such a
state may still carry a nonzero imbalance at every node — or with
`converged = false` when the iteration budget is exhausted, the partial flows
still being returned. -/
def solveIter (omega tol : ℚ) (nodes : List SolverNode) : ℕ → List ℚ → List ℚ × Bool
  | 0, fl => (fl, false)
  | k + 1, fl =>
      let fl' := relaxedPass omega nodes fl
      if residualBelow tol nodes fl' then (fl', true)
      else solveIter omega tol nodes k fl'

/-- Well-formedness of one solver node over `numStreams` streams: outlet stream
numbers are distinct and in range, and the split fractions are nonnegative, one
per outlet, and sum to one (exact mass conservation of the equipment model). -/
def NodeWF (numStreams : ℕ) (n : SolverNode) : Prop :=
  n.outlets.Nodup ∧ (∀ o ∈ n.outlets, o < numStreams) ∧
    n.splits.length = n.outlets.length ∧ (∀ r ∈ n.splits, 0 ≤ r) ∧ n.splits.sum = 1

/-- Well-formedness of a solver flowsheet: every node is well formed and every
stream has at most one producer (spec: exactly one producer per inlet), so the
outlet lists of distinct nodes are disjoint. -/
def FlowsheetWF (numStreams : ℕ) (nodes : List SolverNode) : Prop :=
  (∀ n ∈ nodes, NodeWF numStreams n) ∧
    List.Pairwise (fun a b => ∀ o ∈ a.outlets, o ∉ b.outlets) nodes

/-- Store invariant: every connection entry is keyed by the dash-join of its
endpoint quadruple, and the keys are distinct. -/
def ConnectionsKeyed (s : FlowsheetState) : Prop :=
  (∀ e ∈ s.connections,
      e.1 = connKey e.2.sourceEquipmentId e.2.sourcePort e.2.targetEquipmentId
        e.2.targetPort) ∧
    (s.connections.map Prod.fst).Nodup

/-- A feed-tank config with every optional field absent. -/
def emptyFeedConfig : FeedTankConfig :=
  { inflow_rate := none
    temperature := none
    turbidity := none
    tss := none
    tds := none
    fog := none
    bod := none
    cod := none
    ph := none
    alkalinity := none
    hardness := none
    chloride := none
    sulfate := none
    nitrate := none
    phosphate := none
    iron := none
    manganese := none }

/-- Reachable state with two connections leaving the same outlet port. -/
def c3State : FlowsheetState :=
  runConnActions initialState
    [ConnAction.add "A" "out" "B" "in" "s1", ConnAction.add "A" "out" "C" "in" "s2"]

/-- The first connection of `c3State`. -/
def c3ConnB : Connection :=
  { id := "A-out-B-in"
    sourceEquipmentId := "A"
    sourcePort := "out"
    targetEquipmentId := "B"
    targetPort := "in"
    streamId := "s1" }

/-- The second connection of `c3State`, leaving the same port as the first. -/
def c3ConnC : Connection :=
  { id := "A-out-C-in"
    sourceEquipmentId := "A"
    sourcePort := "out"
    targetEquipmentId := "C"
    targetPort := "in"
    streamId := "s2" }

/-- Reachable state in which the same endpoint quadruple was added twice. -/
def c3wState : FlowsheetState :=
  runConnActions initialState
    [ConnAction.add "A" "out" "B" "in" "s1", ConnAction.add "A" "out" "B" "in" "s2"]

/-- The single connection entry of `c3wState` (the second add replaced the first). -/
def c3wConn : Connection :=
  { id := "A-out-B-in"
    sourceEquipmentId := "A"
    sourcePort := "out"
    targetEquipmentId := "B"
    targetPort := "in"
    streamId := "s2" }

/-- A feed-tank config with inflow rate 50 m³/h and all other fields absent. -/
def c4Config : FeedTankConfig := { emptyFeedConfig with inflow_rate := some 50 }

/-- A feed tank carrying `c4Config`. -/
def c4Tank : Equipment := { id := "T1", type := "feed_tank", config := some c4Config }

/-- A connection from the `c4Tank` outlet into a membrane feed inlet. -/
def c4Conn : Connection :=
  { id := "T1-outlet-UF1-feed_inlet"
    sourceEquipmentId := "T1"
    sourcePort := "outlet"
    targetEquipmentId := "UF1"
    targetPort := "feed_inlet"
    streamId := "sA" }

/-- State holding `c4Tank` and the connection out of it. -/
def c4State : FlowsheetState :=
  { initialState with
    equipment := [("T1", c4Tank)]
    connections := [("T1-outlet-UF1-feed_inlet", c4Conn)] }

/-- A feed-tank config whose turbidity is present with value 0 NTU. -/
def c5Config : FeedTankConfig := { emptyFeedConfig with turbidity := some 0 }

/-- A feed tank carrying `c5Config`. -/
def c5Tank : Equipment := { id := "T1", type := "feed_tank", config := some c5Config }

/-- Equipment map holding only `c5Tank`. -/
def c5Equipment : List (String × Equipment) := [("T1", c5Tank)]

/-- A connection from the `c5Tank` outlet into a membrane feed inlet. -/
def c5Conn : Connection :=
  { id := "T1-outlet-UF1-feed_inlet"
    sourceEquipmentId := "T1"
    sourcePort := "outlet"
    targetEquipmentId := "UF1"
    targetPort := "feed_inlet"
    streamId := "sB" }

/-- State holding one ultrafiltration unit with no connection into its inlet. -/
def c6State : FlowsheetState :=
  { initialState with
    equipment := [("UF-001", { id := "UF-001", type := "ultrafiltration", config := none })] }

/-- A pump equipment entry used by the frame witness. -/
def c8Pump : Equipment := { id := "P1", type := "pump", config := none }

/-- An ultrafiltration equipment entry used by the frame witness. -/
def c8UF : Equipment := { id := "UF1", type := "ultrafiltration", config := none }

/-- A connection from the pump into the membrane, used by the frame witness. -/
def c8Conn : Connection :=
  { id := "P1-discharge-UF1-feed_inlet"
    sourceEquipmentId := "P1"
    sourcePort := "discharge"
    targetEquipmentId := "UF1"
    targetPort := "feed_inlet"
    streamId := "sA" }

/-- The stream created for `c8Conn`. -/
def c8Stream : Stream :=
  { id := "sA"
    sourceEquipmentId := "P1"
    sourcePort := "discharge"
    targetEquipmentId := "UF1"
    targetPort := "feed_inlet"
    properties := { flowRate := 0, pressure := 1, temperature := 25, concentration := 0 } }

/-- State with a pump feeding a membrane, the pump selected. -/
def c8State : FlowsheetState :=
  { initialState with
    equipment := [("P1", c8Pump), ("UF1", c8UF)]
    connections := [("P1-discharge-UF1-feed_inlet", c8Conn)]
    streams := [("sA", c8Stream)]
    selectedEquipment := some "P1" }

/-- A membrane node splitting its feed evenly between permeate and concentrate. -/
def c1Node : SolverNode := { id := "UF", inlets := [0], outlets := [1, 2], splits := [1/2, 1/2] }

/-- Solver flowsheet holding only `c1Node`. -/
def c1Nodes : List SolverNode := [c1Node]

/-- Seeded flows for `c1Nodes`: stream 0 is the external feed at 100 m³/h. -/
def c1Flows : List ℚ := [100, 0, 0]

/-- The flows at which the solve of `c1Nodes` from `c1Flows` with relaxation 1/2
and tolerance 1/2 stops: converged, yet not exactly balanced (the node still
carries an imbalance of 25 against an inlet total of 100). -/
def c1Relaxed : List ℚ := [100, 75/2, 75/2]

/-- A connection between two pieces of equipment that are not in the equipment
map (so not feed-tank sourced). -/
def c4wConn : Connection :=
  { id := "S1-outlet-S2-inlet"
    sourceEquipmentId := "S1"
    sourcePort := "outlet"
    targetEquipmentId := "S2"
    targetPort := "inlet"
    streamId := "sW" }

/-- State holding only `c4wConn`. -/
def c4wState : FlowsheetState :=
  { initialState with connections := [("S1-outlet-S2-inlet", c4wConn)] }

/-- C10: `areStreamsCompatible` is reflexive on the eight stream types — every
stream type is compatible with itself — but not symmetric: permeate is compatible
with product while product is not compatible with permeate. -/
theorem areStreamsCompatible_refl_not_symm :
    (∀ t : StreamType, areStreamsCompatible t t = true) ∧
      areStreamsCompatible StreamType.permeate StreamType.product = true ∧
      areStreamsCompatible StreamType.product StreamType.permeate = false := by
  refine ⟨?_, ?_, ?_⟩ <;> decide

/-- C9: `getStreamType` is total and classifies by the fixed keyword priority
order: any identifier containing "feed" is classified `feed` (so an identifier
containing both "feed" and "permeate" is `feed`); an identifier containing none of
the keywords defaults to `feed`; and "product" is checked last, so "waste-product"
is classified `waste`. -/
theorem getStreamType_priority :
    (∀ s : String, strIncludes (jsToLower s) "feed" = true → getStreamType s = .feed) ∧
      (∀ s : String,
        strIncludes (jsToLower s) "feed" = false →
        strIncludes (jsToLower s) "permeate" = false →
        strIncludes (jsToLower s) "concentrate" = false →
        strIncludes (jsToLower s) "reject" = false →
        strIncludes (jsToLower s) "waste" = false →
        strIncludes (jsToLower s) "backwash" = false →
        strIncludes (jsToLower s) "chemical" = false →
        strIncludes (jsToLower s) "cip" = false →
        strIncludes (jsToLower s) "air" = false →
        strIncludes (jsToLower s) "gas" = false →
        strIncludes (jsToLower s) "product" = false →
        strIncludes (jsToLower s) "clean" = false →
        getStreamType s = .feed) ∧
      getStreamType "waste-product" = .waste := by
  refine ⟨?_, ?_, by decide⟩
  · intro s h
    simp [getStreamType, h]
  · intro s h1 h2 h3 h4 h5 h6 h7 h8 h9 h10 h11 h12
    simp [getStreamType, h1, h2, h3, h4, h5, h6, h7, h8, h9, h10, h11, h12]

/-- Witness for C9: a mixed-case identifier containing both "feed" and "permeate"
is classified `feed`, and an identifier containing no keyword defaults to `feed`. -/
theorem getStreamType_priority_witness :
    getStreamType "Feed-permeate" = .feed ∧ getStreamType "pump-discharge" = .feed :=
  ⟨getStreamType_priority.1 "Feed-permeate" (by decide),
   getStreamType_priority.2.1 "pump-discharge" (by decide) (by decide) (by decide)
     (by decide) (by decide) (by decide) (by decide) (by decide) (by decide)
     (by decide) (by decide) (by decide)⟩

/-- C2: evaluation at the failing input.  `addConnection` admits the connection
from the concentrate outlet of "UF-001" into the feed inlet of "TANK-001" even
though the compatibility check of `models/Stream.ts` rejects this pair
(concentrate is not compatible with feed): the connection and its stream are
inserted into the flowsheet and no `TopologyError` (nor any diagnostic) is
recorded — `areStreamsCompatible` is never invoked on the connect path. -/
theorem addConnection_ignores_compatibility :
    areStreamsCompatible (getStreamType "concentrate_outlet")
        (getStreamType "feed_inlet") = false ∧
      recLookup "UF-001-concentrate_outlet-TANK-001-feed_inlet"
          (addConnection initialState "UF-001" "concentrate_outlet" "TANK-001"
            "feed_inlet" "stream-1").connections =
        some { id := "UF-001-concentrate_outlet-TANK-001-feed_inlet"
               sourceEquipmentId := "UF-001"
               sourcePort := "concentrate_outlet"
               targetEquipmentId := "TANK-001"
               targetPort := "feed_inlet"
               streamId := "stream-1" } ∧
      (addConnection initialState "UF-001" "concentrate_outlet" "TANK-001"
        "feed_inlet" "stream-1").errors = [] := by
  refine ⟨by decide, by decide, rfl⟩

/-- Membership after JS-object insertion: any entry is the inserted one or an
original one. -/
theorem mem_recInsert {k : String} {v : α} {e : String × α} {l : List (String × α)}
    (h : e ∈ recInsert k v l) : e = (k, v) ∨ e ∈ l := by
  induction l with
  | nil => simpa [recInsert] using h
  | cons hd tl ih =>
    obtain ⟨k', v'⟩ := hd
    by_cases hk : k' = k
    · simp only [recInsert, if_pos hk, List.mem_cons] at h
      rcases h with h | h
      · exact Or.inl h
      · exact Or.inr (List.mem_cons_of_mem _ h)
    · simp only [recInsert, if_neg hk, List.mem_cons] at h
      rcases h with h | h
      · exact Or.inr (List.mem_cons.mpr (Or.inl h))
      · rcases ih h with h' | h'
        · exact Or.inl h'
        · exact Or.inr (List.mem_cons_of_mem _ h')

/-- Keys after JS-object insertion: any key is the inserted one or an original
one. -/
theorem mem_keys_recInsert {k : String} {v : α} {a : String} {l : List (String × α)}
    (h : a ∈ (recInsert k v l).map Prod.fst) : a = k ∨ a ∈ l.map Prod.fst := by
  rcases List.mem_map.mp h with ⟨e, he, rfl⟩
  rcases mem_recInsert he with h' | h'
  · exact Or.inl (by rw [h'])
  · exact Or.inr (List.mem_map_of_mem _ h')

/-- JS-object insertion keeps the keys distinct. -/
theorem keys_recInsert_nodup {k : String} {v : α} {l : List (String × α)}
    (h : (l.map Prod.fst).Nodup) : ((recInsert k v l).map Prod.fst).Nodup := by
  induction l with
  | nil => simp [recInsert]
  | cons hd tl ih =>
    obtain ⟨k', v'⟩ := hd
    simp only [List.map_cons, List.nodup_cons] at h
    by_cases hk : k' = k
    · simp only [recInsert, if_pos hk, List.map_cons, List.nodup_cons]
      exact ⟨by simpa [hk] using h.1, h.2⟩
    · simp only [recInsert, if_neg hk, List.map_cons, List.nodup_cons]
      refine ⟨fun hmem => ?_, ih h.2⟩
      rcases mem_keys_recInsert hmem with h' | h'
      · exact hk h'
      · exact h.1 h'

/-- In a list with distinct keys, entries sharing a key are equal. -/
theorem eq_of_mem_of_keys_nodup {l : List (String × α)}
    (h : (l.map Prod.fst).Nodup) {e1 e2 : String × α}
    (h1 : e1 ∈ l) (h2 : e2 ∈ l) (hk : e1.1 = e2.1) : e1 = e2 := by
  induction l with
  | nil => cases h1
  | cons hd tl ih =>
    simp only [List.map_cons, List.nodup_cons] at h
    rcases List.mem_cons.mp h1 with h1 | h1 <;> rcases List.mem_cons.mp h2 with h2 | h2
    · rw [h1, h2]
    · exact absurd (hk ▸ List.mem_map_of_mem Prod.fst h2) (h1 ▸ h.1)
    · exact absurd (hk ▸ List.mem_map_of_mem Prod.fst h1) (h2 ▸ h.1)
    · exact ih h.2 h1 h2

/-- `addConnection` preserves the connection-key invariant. -/
theorem connectionsKeyed_addConnection {s : FlowsheetState} (h : ConnectionsKeyed s)
    (a b c d sid : String) : ConnectionsKeyed (addConnection s a b c d sid) := by
  constructor
  · intro e he
    rcases mem_recInsert (by simpa [addConnection] using he) with h' | h'
    · rw [h']
    · exact h.1 e h'
  · simpa [addConnection] using keys_recInsert_nodup h.2

/-- `removeConnection` preserves the connection-key invariant. -/
theorem connectionsKeyed_removeConnection {s : FlowsheetState}
    (h : ConnectionsKeyed s) (cid : String) :
    ConnectionsKeyed (removeConnection s cid) := by
  have hsub : List.Sublist ((recErase cid s.connections).map Prod.fst)
      (s.connections.map Prod.fst) :=
    List.Sublist.map Prod.fst (List.filter_sublist _)
  unfold removeConnection
  cases recLookup cid s.connections with
  | none => exact h
  | some connection =>
    constructor
    · intro e he
      have he' : e ∈ recErase cid s.connections := he
      exact h.1 e (List.mem_of_mem_filter he')
    · exact h.2.sublist hsub

/-- Every sequence of connection actions preserves the connection-key invariant. -/
theorem connectionsKeyed_runConnActions {l : List ConnAction} :
    ∀ {s : FlowsheetState}, ConnectionsKeyed s →
      ConnectionsKeyed (runConnActions s l) := by
  induction l with
  | nil => intro s h; simpa [runConnActions] using h
  | cons a tl ih =>
    intro s h
    have h1 : ConnectionsKeyed (applyConnAction s a) := by
      cases a with
      | add x1 x2 x3 x4 x5 => exact connectionsKeyed_addConnection h x1 x2 x3 x4 x5
      | remove cid => exact connectionsKeyed_removeConnection h cid
    simpa [runConnActions, List.foldl_cons] using ih h1

/-- The empty store satisfies the connection-key invariant. -/
theorem connectionsKeyed_initialState : ConnectionsKeyed initialState := by
  constructor <;> simp [initialState]

/-- Every reachable state satisfies the connection-key invariant. -/
theorem reachable_connectionsKeyed {s : FlowsheetState} (h : ReachableConn s) :
    ConnectionsKeyed s := by
  obtain ⟨l, rfl⟩ := h
  exact connectionsKeyed_runConnActions connectionsKeyed_initialState

/-- C3 (amended): in every state reachable by `addConnection` and
`removeConnection` actions, connection entries are keyed by their endpoint
quadruple, so no two distinct connections share the same (source equipment, source
port, target equipment, target port) quadruple — re-adding the same quadruple
replaces the entry instead of duplicating it.  Ports, however, may participate in
several connections; fan-in and fan-out are not prevented (see the
counterexample). -/
theorem reachable_connection_quadruple_unique {s : FlowsheetState}
    (h : ReachableConn s) {e1 e2 : String × Connection}
    (h1 : e1 ∈ s.connections) (h2 : e2 ∈ s.connections)
    (hsrc : e1.2.sourceEquipmentId = e2.2.sourceEquipmentId)
    (hsp : e1.2.sourcePort = e2.2.sourcePort)
    (htgt : e1.2.targetEquipmentId = e2.2.targetEquipmentId)
    (htp : e1.2.targetPort = e2.2.targetPort) : e1 = e2 := by
  have hk := reachable_connectionsKeyed h
  exact eq_of_mem_of_keys_nodup hk.2 h1 h2
    (by rw [hk.1 e1 h1, hk.1 e2 h2, hsrc, hsp, htgt, htp])

/-- Witness for the amended C3: in the reachable state where the quadruple
(A, out, B, in) was added twice, the surviving entries coincide. -/
theorem reachable_connection_quadruple_unique_witness :
    ("A-out-B-in", c3wConn) = ("A-out-B-in", c3wConn) :=
  reachable_connection_quadruple_unique
    (s := c3wState)
    ⟨[ConnAction.add "A" "out" "B" "in" "s1", ConnAction.add "A" "out" "B" "in" "s2"], rfl⟩
    (by decide) (by decide) rfl rfl rfl rfl

/-- C3 counterexample: `c3State` is reachable and its outlet port "out" of
equipment "A" is the source of two distinct connections — fan-out from one outlet
is not prevented, refuting "each port participates in at most one connection". -/
theorem connection_per_port_counterexample :
    ReachableConn c3State ∧
      ("A-out-B-in", c3ConnB) ∈ c3State.connections ∧
      ("A-out-C-in", c3ConnC) ∈ c3State.connections ∧
      c3ConnB.sourceEquipmentId = c3ConnC.sourceEquipmentId ∧
      c3ConnB.sourcePort = c3ConnC.sourcePort ∧
      c3ConnB ≠ c3ConnC :=
  ⟨⟨[ConnAction.add "A" "out" "B" "in" "s1", ConnAction.add "A" "out" "C" "in" "s2"], rfl⟩,
   by decide, by decide, rfl, rfl, by decide⟩

/-- C8: `removeEquipment` deletes the equipment entry and exactly the connections
whose source or target is the removed id, leaves the `streams` map unchanged — the
stream entries created for the removed connections survive, still referencing the
deleted equipment — clears the selection when it pointed at the removed equipment,
and touches no other field of the state. -/
theorem removeEquipment_frame (s : FlowsheetState) (id : String) :
    (∀ e ∈ (removeEquipment s id).equipment, e ∈ s.equipment ∧ e.1 ≠ id) ∧
      (∀ e ∈ s.equipment, e.1 ≠ id → e ∈ (removeEquipment s id).equipment) ∧
      (∀ e ∈ (removeEquipment s id).connections, e ∈ s.connections ∧
        e.2.sourceEquipmentId ≠ id ∧ e.2.targetEquipmentId ≠ id) ∧
      (∀ e ∈ s.connections, e.2.sourceEquipmentId ≠ id → e.2.targetEquipmentId ≠ id →
        e ∈ (removeEquipment s id).connections) ∧
      (removeEquipment s id).streams = s.streams ∧
      (removeEquipment s id).calculations = s.calculations ∧
      (removeEquipment s id).streamProperties = s.streamProperties ∧
      (removeEquipment s id).isCalculating = s.isCalculating ∧
      (removeEquipment s id).lastCalculation = s.lastCalculation ∧
      (removeEquipment s id).massBalanceValid = s.massBalanceValid ∧
      (removeEquipment s id).systemRecovery = s.systemRecovery ∧
      (removeEquipment s id).errors = s.errors ∧
      (removeEquipment s id).warnings = s.warnings ∧
      (removeEquipment s id).selectedStream = s.selectedStream ∧
      (removeEquipment s id).selectedEquipment =
        (if s.selectedEquipment = some id then none else s.selectedEquipment) := by
  refine ⟨?_, ?_, ?_, ?_, rfl, rfl, rfl, rfl, rfl, rfl, rfl, rfl, rfl, rfl, rfl⟩
  · intro e he
    simpa [removeEquipment, recErase, List.mem_filter] using he
  · intro e he hne
    simp [removeEquipment, recErase, List.mem_filter, he, hne]
  · intro e he
    simpa [removeEquipment, List.mem_filter, not_or] using he
  · intro e he h1 h2
    simp [removeEquipment, List.mem_filter, he, h1, h2]

/-- Witness for C8: removing the pump from `c8State` keeps the membrane entry and
leaves the streams map — including the stream of the removed pump connection —
unchanged. -/
theorem removeEquipment_frame_witness :
    ("UF1", c8UF) ∈ (removeEquipment c8State "P1").equipment ∧
      (removeEquipment c8State "P1").streams = c8State.streams :=
  ⟨(removeEquipment_frame c8State "P1").2.1 ("UF1", c8UF) (by decide) (by decide),
   (removeEquipment_frame c8State "P1").2.2.2.2.1⟩

/-- For a connection whose source equipment is not a feed tank with a config, the
request stream entry is exactly the seed entry. -/
theorem buildStreamData_of_not_feed_tank {equipment : List (String × Equipment)}
    {c : Connection} (h : sourceIsFeedTank equipment c = false) (cid : String) :
    buildStreamData equipment cid c = seedStreamData cid c := by
  unfold sourceIsFeedTank at h
  cases hl : recLookup c.sourceEquipmentId equipment with
  | none => simp [buildStreamData, hl]
  | some eq =>
    rw [hl] at h
    have h' : (eq.type == "feed_tank" && eq.config.isSome) = false := h
    by_cases ht : eq.type = "feed_tank"
    · cases hc : eq.config with
      | none => simp [buildStreamData, hl, ht, hc]
      | some cfg =>
        exfalso
        simp [ht, hc] at h'
    · simp [buildStreamData, hl, ht]

/-- C4 (amended): the solve request is rebuilt from scratch on every solve — it is
a function of the equipment and connection snapshots alone, so stream properties
computed by previous solves (`streams`, `streamProperties`, `calculations`) never
enter it — and every connection whose source is not a feed tank with a config is
sent exactly the seed entry: flow rate 0, pressure 1.0 bar, temperature 25 °C,
concentration 0, and the default water quality.  A feed-tank source overrides the
seed with its configured boundary fields (see C5 and the counterexample). -/
theorem solveRequest_rebuilt_from_scratch :
    (∀ s1 s2 : FlowsheetState, s1.equipment = s2.equipment →
      s1.connections = s2.connections →
      buildFlowsheetData s1 = buildFlowsheetData s2) ∧
      (∀ s : FlowsheetState, ∀ e ∈ s.connections,
        sourceIsFeedTank s.equipment e.2 = false →
        (e.1, seedStreamData e.1 e.2) ∈ (buildFlowsheetData s).streams) ∧
      (∀ cid : String, ∀ c : Connection,
        (seedStreamData cid c).flow_rate = 0 ∧ (seedStreamData cid c).pressure = 1 ∧
        (seedStreamData cid c).temperature = 25 ∧
        (seedStreamData cid c).concentration = 0 ∧
        (seedStreamData cid c).turbidity = 1 ∧ (seedStreamData cid c).tss = 10 ∧
        (seedStreamData cid c).tds = 500 ∧ (seedStreamData cid c).fog = 5 ∧
        (seedStreamData cid c).bod = 20 ∧ (seedStreamData cid c).cod = 50 ∧
        (seedStreamData cid c).ph = 7 ∧ (seedStreamData cid c).alkalinity = 100 ∧
        (seedStreamData cid c).hardness = 150 ∧ (seedStreamData cid c).chloride = 50 ∧
        (seedStreamData cid c).sulfate = 30 ∧ (seedStreamData cid c).nitrate = 10 ∧
        (seedStreamData cid c).phosphate = 2 ∧ (seedStreamData cid c).iron = 1/2 ∧
        (seedStreamData cid c).manganese = 1/10) := by
  refine ⟨?_, ?_, ?_⟩
  · intro s1 s2 he hc
    simp only [buildFlowsheetData, he, hc]
  · intro s e he hft
    have hm : (e.1, buildStreamData s.equipment e.1 e.2) ∈ (buildFlowsheetData s).streams :=
      List.mem_map_of_mem _ he
    rwa [buildStreamData_of_not_feed_tank hft] at hm
  · intro cid c
    exact ⟨rfl, rfl, rfl, rfl, rfl, rfl, rfl, rfl, rfl, rfl, rfl, rfl, rfl, rfl, rfl,
      rfl, rfl, rfl, rfl⟩

/-- Witness for the amended C4: the connection of `c4wState`, whose source is not
in the equipment map, is sent the seed entry. -/
theorem solveRequest_rebuilt_from_scratch_witness :
    ("S1-outlet-S2-inlet", seedStreamData "S1-outlet-S2-inlet" c4wConn) ∈
      (buildFlowsheetData c4wState).streams :=
  solveRequest_rebuilt_from_scratch.2.1 c4wState ("S1-outlet-S2-inlet", c4wConn)
    (by decide) (by decide)

/-- C4 counterexample: for the connection of `c4State`, sourced at a feed tank
whose configured inflow rate is 50 m³/h, the request entry carries flow rate 50,
not the seed flow rate 0 — the claim's "seed state for every connection" fails on
feed-tank-sourced connections. -/
theorem solveRequest_seed_counterexample :
    (buildFlowsheetData c4State).streams =
      [("T1-outlet-UF1-feed_inlet",
        { seedStreamData "T1-outlet-UF1-feed_inlet" c4Conn with flow_rate := 50 })] ∧
      (buildStreamData c4State.equipment "T1-outlet-UF1-feed_inlet" c4Conn).flow_rate ≠ 0 := by
  refine ⟨?_, by decide⟩
  rfl

/-- C5 (amended): for a connection whose source equipment is a `feed_tank` with a
config, the request entry carries the tank's boundary fields through the
JavaScript `||` fallback: each field equals the configured value when that value
is present and nonzero, and the documented default when the field is absent — or
zero, since 0 is falsy (for the flow rate the fallback is itself 0, so the flow
rate equals the configured inflow rate whenever one is present). -/
theorem buildStreamData_feed_tank (equipment : List (String × Equipment))
    (cid : String) (c : Connection) (eq : Equipment) (cfg : FeedTankConfig)
    (hlook : recLookup c.sourceEquipmentId equipment = some eq)
    (htype : eq.type = "feed_tank") (hcfg : eq.config = some cfg) :
    ((buildStreamData equipment cid c).flow_rate = jsOr cfg.inflow_rate 0 ∧
      (buildStreamData equipment cid c).temperature = jsOr cfg.temperature 25 ∧
      (buildStreamData equipment cid c).turbidity = jsOr cfg.turbidity 1 ∧
      (buildStreamData equipment cid c).tss = jsOr cfg.tss 10 ∧
      (buildStreamData equipment cid c).tds = jsOr cfg.tds 500 ∧
      (buildStreamData equipment cid c).fog = jsOr cfg.fog 5 ∧
      (buildStreamData equipment cid c).bod = jsOr cfg.bod 20 ∧
      (buildStreamData equipment cid c).cod = jsOr cfg.cod 50 ∧
      (buildStreamData equipment cid c).ph = jsOr cfg.ph 7 ∧
      (buildStreamData equipment cid c).alkalinity = jsOr cfg.alkalinity 100 ∧
      (buildStreamData equipment cid c).hardness = jsOr cfg.hardness 150 ∧
      (buildStreamData equipment cid c).chloride = jsOr cfg.chloride 50 ∧
      (buildStreamData equipment cid c).sulfate = jsOr cfg.sulfate 30 ∧
      (buildStreamData equipment cid c).nitrate = jsOr cfg.nitrate 10 ∧
      (buildStreamData equipment cid c).phosphate = jsOr cfg.phosphate 2 ∧
      (buildStreamData equipment cid c).iron = jsOr cfg.iron (1/2) ∧
      (buildStreamData equipment cid c).manganese = jsOr cfg.manganese (1/10)) ∧
      (∀ x d : ℚ, jsOr (some x) d = if x = 0 then d else x) ∧
      (∀ d : ℚ, jsOr none d = d) := by
  refine ⟨?_, fun x d => rfl, fun d => rfl⟩
  simp [buildStreamData, hlook, htype, hcfg]

/-- Witness for the amended C5: at the feed tank of `c4State` (configured inflow
rate 50, everything else absent) the request entry carries flow rate 50 and the
default temperature. -/
theorem buildStreamData_feed_tank_witness :
    (buildStreamData c4State.equipment "T1-outlet-UF1-feed_inlet" c4Conn).flow_rate =
        jsOr c4Config.inflow_rate 0 ∧
      (buildStreamData c4State.equipment "T1-outlet-UF1-feed_inlet" c4Conn).temperature =
        jsOr c4Config.temperature 25 :=
  ⟨(buildStreamData_feed_tank c4State.equipment "T1-outlet-UF1-feed_inlet" c4Conn
      c4Tank c4Config (by decide) rfl rfl).1.1,
   (buildStreamData_feed_tank c4State.equipment "T1-outlet-UF1-feed_inlet" c4Conn
      c4Tank c4Config (by decide) rfl rfl).1.2.1⟩

/-- C5 counterexample: the feed tank of `c5Equipment` has a configured (present)
turbidity of 0 NTU, yet the request entry carries the default 1.0, not the
configured value — the JavaScript `||` fallback treats a configured 0 like an
absent field, refuting "each field equals the tank's configured value, with the
documented defaults used for any absent field". -/
theorem feed_tank_zero_field_counterexample :
    c5Config.turbidity = some 0 ∧
      (buildStreamData c5Equipment "T1-outlet-UF1-feed_inlet" c5Conn).turbidity = 1 ∧
      (1 : ℚ) ≠ 0 := by
  refine ⟨rfl, ?_, by norm_num⟩
  rfl

/-- C6: when the solve response reports failure, `recalculateFlowsheet` records
only the returned diagnostics in the error list — no stream results are recorded:
`streamProperties`, `calculations` and the remaining result fields are untouched,
and warnings are cleared.  In particular, against the spec-modelled backend, the
flowsheet `c6State` with a disconnected required inlet ends with exactly one
`TopologyError` diagnostic and an empty `streamProperties` map. -/
theorem recalculate_failure_records_diagnostics_only
    (backend : SolveRequest → SolveResponse) (now : String) (s : FlowsheetState)
    (hne : s.equipment.isEmpty = false)
    (hfail : (backend (buildFlowsheetData s)).success = false) :
    ((recalculateFlowsheet backend now s).errors =
        (backend (buildFlowsheetData s)).errors.getD [] ∧
      (recalculateFlowsheet backend now s).streamProperties = s.streamProperties ∧
      (recalculateFlowsheet backend now s).calculations = s.calculations ∧
      (recalculateFlowsheet backend now s).massBalanceValid = s.massBalanceValid ∧
      (recalculateFlowsheet backend now s).systemRecovery = s.systemRecovery ∧
      (recalculateFlowsheet backend now s).lastCalculation = s.lastCalculation ∧
      (recalculateFlowsheet backend now s).warnings = [] ∧
      (recalculateFlowsheet backend now s).streams = s.streams ∧
      (recalculateFlowsheet backend now s).connections = s.connections) ∧
      ((recalculateFlowsheet backendSolve "t0" c6State).errors =
        [{ code := "TopologyError"
           message := "required inlet has no connected producer"
           equipment_id := "UF-001"
           severity := "error" }] ∧
      (recalculateFlowsheet backendSolve "t0" c6State).streamProperties = []) := by
  constructor
  · simp [recalculateFlowsheet, hne, hfail]
  · constructor <;> rfl

/-- Witness for C6: the failure path applied to the spec-modelled backend and the
disconnected flowsheet `c6State`. -/
theorem recalculate_failure_records_diagnostics_only_witness :
    (recalculateFlowsheet backendSolve "t0" c6State).errors =
        (backendSolve (buildFlowsheetData c6State)).errors.getD [] ∧
      (recalculateFlowsheet backendSolve "t0" c6State).calculations =
        c6State.calculations :=
  ⟨(recalculate_failure_records_diagnostics_only backendSolve "t0" c6State
      (by decide) (by decide)).1.1,
   (recalculate_failure_records_diagnostics_only backendSolve "t0" c6State
      (by decide) (by decide)).1.2.2.1⟩

/-- C7: determinism of the solve as a two-run property.  For identical equipment
and connection snapshots, the request built and sent to the backend is identical;
the backend being a function of the request, the response is identical, and so are
all result fields recorded in the store: the diagnostics always, and on success
also the calculations, stream properties, convergence flag and system recovery.
(The `lastCalculation` field records the invocation timestamp and is not part of
the solve result.) -/
theorem solve_deterministic (backend : SolveRequest → SolveResponse)
    (now1 now2 : String) (s1 s2 : FlowsheetState)
    (hne : s1.equipment.isEmpty = false)
    (heq : s1.equipment = s2.equipment) (hconn : s1.connections = s2.connections) :
    buildFlowsheetData s1 = buildFlowsheetData s2 ∧
      (recalculateFlowsheet backend now1 s1).errors =
        (recalculateFlowsheet backend now2 s2).errors ∧
      ((backend (buildFlowsheetData s1)).success = true →
        (recalculateFlowsheet backend now1 s1).calculations =
          (recalculateFlowsheet backend now2 s2).calculations ∧
        (recalculateFlowsheet backend now1 s1).streamProperties =
          (recalculateFlowsheet backend now2 s2).streamProperties ∧
        (recalculateFlowsheet backend now1 s1).massBalanceValid =
          (recalculateFlowsheet backend now2 s2).massBalanceValid ∧
        (recalculateFlowsheet backend now1 s1).systemRecovery =
          (recalculateFlowsheet backend now2 s2).systemRecovery) := by
  have hreq : buildFlowsheetData s1 = buildFlowsheetData s2 := by
    simp only [buildFlowsheetData, heq, hconn]
  have hne2 : s2.equipment.isEmpty = false := heq ▸ hne
  refine ⟨hreq, ?_, ?_⟩
  · cases hs : (backend (buildFlowsheetData s1)).success
    · simp [recalculateFlowsheet, hne, hne2, ← hreq, hs]
    · simp [recalculateFlowsheet, hne, hne2, ← hreq, hs]
  · intro hs
    refine ⟨?_, ?_, ?_, ?_⟩ <;> simp [recalculateFlowsheet, hne, hne2, ← hreq, hs]

/-- Witness for C7: two solves of `c4State` at different timestamps record the
same diagnostics and, the response being successful, the same stream properties. -/
theorem solve_deterministic_witness :
    (recalculateFlowsheet backendSolve "t1" c4State).errors =
        (recalculateFlowsheet backendSolve "t2" c4State).errors ∧
      (recalculateFlowsheet backendSolve "t1" c4State).streamProperties =
        (recalculateFlowsheet backendSolve "t2" c4State).streamProperties :=
  ⟨(solve_deterministic backendSolve "t1" "t2" c4State c4State (by decide) rfl rfl).2.1,
   ((solve_deterministic backendSolve "t1" "t2" c4State c4State (by decide) rfl rfl).2.2
      (by decide)).2.1⟩

/-- Writing nonnegative split shares of a nonnegative total keeps all stream
flows nonnegative. -/
theorem nonneg_foldl_set (t : ℚ) (ht : 0 ≤ t) :
    ∀ {ps : List (ℕ × ℚ)} (fl : List ℚ), (∀ q ∈ fl, 0 ≤ q) → (∀ p ∈ ps, 0 ≤ p.2) →
      ∀ q ∈ ps.foldl (fun fl p => fl.set p.1 (p.2 * t)) fl, 0 ≤ q := by
  intro ps
  induction ps with
  | nil => intro fl h _ q hq; exact h q hq
  | cons r rest ih =>
    intro fl h hs q hq
    rw [List.foldl_cons] at hq
    refine ih _ ?_ (fun p hp => hs p (List.mem_cons_of_mem _ hp)) q hq
    intro x hx
    rcases List.mem_or_eq_of_mem_set hx with hx' | rfl
    · exact h x hx'
    · exact mul_nonneg (hs r (List.mem_cons_self r rest)) ht

/-- With nonnegative stream flows, the inlet total of every node is
nonnegative. -/
theorem sumInlets_nonneg {fl : List ℚ} (h : ∀ q ∈ fl, 0 ≤ q) (n : SolverNode) :
    0 ≤ sumInlets fl n := by
  refine List.sum_nonneg ?_
  intro x hx
  rcases List.mem_map.mp hx with ⟨i, _, rfl⟩
  have hD : fl.getD i 0 = (fl.get? i).getD 0 := rfl
  rw [hD]
  cases hg : fl.get? i with
  | none => simp
  | some v => simpa using h v (List.get?_mem hg)

/-- A pass keeps all stream flows nonnegative. -/
theorem nonneg_runPass :
    ∀ {nodes : List SolverNode} (fl : List ℚ),
      (∀ n ∈ nodes, ∀ r ∈ n.splits, 0 ≤ r) → (∀ q ∈ fl, 0 ≤ q) →
      ∀ q ∈ runPass nodes fl, 0 ≤ q := by
  intro nodes
  induction nodes with
  | nil => intro fl _ h q hq; exact h q hq
  | cons m rest ih =>
    intro fl hs h q hq
    rw [runPass, List.foldl_cons, ← runPass] at hq
    refine ih _ (fun n hn => hs n (List.mem_cons_of_mem _ hn)) ?_ q hq
    refine nonneg_foldl_set _ (sumInlets_nonneg h m) _ h ?_
    intro p hp
    obtain ⟨a, b⟩ := p
    exact hs m (List.mem_cons_self m rest) b (List.mem_zip hp).2

/-- The relaxed pass keeps all stream flows nonnegative when the relaxation
factor lies in [0, 1]. -/
theorem nonneg_relaxedPass {omega : ℚ} (h0 : 0 ≤ omega) (h1 : omega ≤ 1)
    {nodes : List SolverNode} (hs : ∀ n ∈ nodes, ∀ r ∈ n.splits, 0 ≤ r)
    (fl : List ℚ) (hfl : ∀ q ∈ fl, 0 ≤ q) :
    ∀ q ∈ relaxedPass omega nodes fl, 0 ≤ q := by
  intro q hq
  rw [relaxedPass] at hq
  rcases List.mem_map.mp hq with ⟨p, hp, rfl⟩
  obtain ⟨a, b⟩ := p
  have ha := hfl a (List.mem_zip hp).1
  have hb := nonneg_runPass fl hs hfl b (List.mem_zip hp).2
  have h1' : (0 : ℚ) ≤ 1 - omega := by linarith
  exact add_nonneg (mul_nonneg h1' ha) (mul_nonneg h0 hb)

/-- The solver keeps all stream flows nonnegative. -/
theorem solveIter_nonneg {omega tol : ℚ} (h0 : 0 ≤ omega) (h1 : omega ≤ 1)
    {nodes : List SolverNode} (hs : ∀ n ∈ nodes, ∀ r ∈ n.splits, 0 ≤ r) :
    ∀ {k : ℕ} {f0 : List ℚ}, (∀ q ∈ f0, 0 ≤ q) →
      ∀ q ∈ (solveIter omega tol nodes k f0).1, 0 ≤ q := by
  intro k
  induction k with
  | zero => intro f0 h q hq; exact h q hq
  | succ k ih =>
    intro f0 h
    simp only [solveIter]
    split
    · exact nonneg_relaxedPass h0 h1 hs f0 h
    · exact ih (nonneg_relaxedPass h0 h1 hs f0 h)

/-- A solver run that reports convergence ends on a state whose residual is below
the tolerance. -/
theorem solveIter_converged_residual {omega tol : ℚ} {nodes : List SolverNode} :
    ∀ {k : ℕ} {f0 fl : List ℚ}, solveIter omega tol nodes k f0 = (fl, true) →
      residualBelow tol nodes fl := by
  intro k
  induction k with
  | zero =>
    intro f0 fl h
    exact absurd (congrArg Prod.snd h) (by simp [solveIter])
  | succ k ih =>
    intro f0 fl h
    simp only [solveIter] at h
    split at h
    · rename_i hres
      have h1 : relaxedPass omega nodes f0 = fl := congrArg Prod.fst h
      rw [h1] at hres
      exact hres
    · exact ih h

/-- A state whose residual is below the tolerance has every node in mass balance
within that tolerance. -/
theorem residualBelow_balance {tol : ℚ} {nodes : List SolverNode} {fl : List ℚ}
    (htol : 0 ≤ tol) (hfl : ∀ q ∈ fl, 0 ≤ q) (h : residualBelow tol nodes fl) :
    ∀ n ∈ nodes, |sumInlets fl n - sumOutlets fl n| ≤ tol * sumInlets fl n := by
  intro n hn
  rcases h n hn with ⟨hlt1, hlt2⟩ | heq
  · exact le_of_lt (abs_sub_lt_iff.mpr ⟨hlt1, hlt2⟩)
  · rw [heq, abs_zero]
    exact mul_nonneg htol (sumInlets_nonneg hfl n)

/-- C1: for every converged solve of the spec-modelled mass-balance solver —
relaxed passes repeated until the residual, the largest relative mass-balance
discrepancy (spec 3's `maxResidual`), falls below the configured tolerance —
every equipment node is in mass balance within that tolerance:
|Σ inlet − Σ outlet| ≤ tolerance · Σ inlet.  A converged state need not be
exactly balanced; the bound is exactly the strict residual test, closed under the
nonnegativity of the flows the solver maintains. -/
theorem converged_mass_balance {numStreams k : ℕ} {omega tol : ℚ}
    {nodes : List SolverNode} {flows0 fl : List ℚ}
    (hwf : FlowsheetWF numStreams nodes)
    (homega0 : 0 ≤ omega) (homega1 : omega ≤ 1)
    (hnn : ∀ q ∈ flows0, 0 ≤ q) (htol : 0 ≤ tol)
    (hsolve : solveIter omega tol nodes k flows0 = (fl, true)) :
    ∀ n ∈ nodes, |sumInlets fl n - sumOutlets fl n| ≤ tol * sumInlets fl n := by
  obtain ⟨hnodes, _⟩ := hwf
  have hfl1 : fl = (solveIter omega tol nodes k flows0).1 := by rw [hsolve]
  have hnnfl : ∀ q ∈ fl, 0 ≤ q := by
    rw [hfl1]
    exact solveIter_nonneg homega0 homega1
      (fun n hn => (hnodes n hn).2.2.2.1) hnn
  exact residualBelow_balance htol hnnfl (solveIter_converged_residual hsolve)

/-- Witness for C1: the single-membrane flowsheet `c1Nodes`, seeded with a
100 m³/h feed and solved with relaxation 1/2 and tolerance 1/2, converges after
two relaxed passes on the inexactly balanced state `c1Relaxed` (imbalance 25
against an inlet total of 100), which the theorem bounds by tolerance times the
inlet total. -/
theorem converged_mass_balance_witness :
    |sumInlets c1Relaxed c1Node - sumOutlets c1Relaxed c1Node| ≤
      (1/2 : ℚ) * sumInlets c1Relaxed c1Node := by
  have hwf : FlowsheetWF 3 c1Nodes := by
    constructor
    · intro n hn
      simp only [c1Nodes, List.mem_singleton] at hn
      subst hn
      refine ⟨by simp [c1Node], by decide, by simp [c1Node], ?_, ?_⟩
      · intro r hr
        simp only [c1Node, List.mem_cons, List.not_mem_nil, or_false] at hr
        rcases hr with rfl | rfl <;> norm_num
      · norm_num [c1Node, List.sum_cons]
    · simp [c1Nodes]
  have hp1 : relaxedPass (1/2) c1Nodes c1Flows = [100, 25, 25] := by
    norm_num [relaxedPass, runPass, evalNode, writeOutlets, sumInlets, c1Nodes,
      c1Node, c1Flows, List.set, List.getD, List.zip, List.zipWith]
  have hp2 : relaxedPass (1/2) c1Nodes [100, 25, 25] = c1Relaxed := by
    norm_num [relaxedPass, runPass, evalNode, writeOutlets, sumInlets, c1Nodes,
      c1Node, c1Relaxed, List.set, List.getD, List.zip, List.zipWith]
  have hr1 : ¬ residualBelow (1/2) c1Nodes [100, 25, 25] := by
    norm_num [residualBelow, sumInlets, sumOutlets, c1Nodes, c1Node, List.getD]
  have hr2 : residualBelow (1/2) c1Nodes c1Relaxed := by
    norm_num [residualBelow, sumInlets, sumOutlets, c1Nodes, c1Node, c1Relaxed,
      List.getD]
  have hsolve : solveIter (1/2) (1/2) c1Nodes 5 c1Flows = (c1Relaxed, true) := by
    simp only [solveIter, hp1, hr1, if_false, hp2, hr2, if_true]
  exact converged_mass_balance hwf (by norm_num) (by norm_num)
    (by norm_num [c1Flows]) (by norm_num) hsolve c1Node (List.mem_singleton.mpr rfl)

end WaterTreatment
